import Mathlib

/-!
Shallow embedding of the CSV-to-SQL-Server migration pipeline
(`data_migration_into_db/migrate_data.py` with `config.py`).

Modelling conventions:
* a pandas cell is an `Option` value (`none` = NaN/NaT/null);
* a Python string is a `List Char` (`PyStr`), so `str.strip`, slicing and
  length are plain list operations;
* a `pd.Timestamp` is a calendar day number (days since 1970-01-01,
  computed by the standard civil-date conversion) together with a
  time-of-day in seconds; comparison is lexicographic, which is the
  chronological order;
* numeric cells (`funding_total_usd`, `funding_rounds`) are `Option ℚ`,
  matching the decimal semantics of the destination column;
* a DataFrame is a list of rows plus one presence flag per mapped column
  (`'col' in df.columns`); `df.rename(columns=COLUMN_MAPPING)` is a
  bijective relabelling, so source and destination column names are
  identified and each logical field appears once in `Row`/`Cols`;
* external effects (file system, ODBC connection, `to_sql`, report file)
  are oracles in an `Env`; `DataFrame.to_sql` semantics on the destination
  table follow the documented `if_exists` behaviour.
-/

namespace Migration

/-- Python string, as a list of characters. -/
abbrev PyStr := List Char

/-- `pd.Timestamp`: a calendar day number (days since 1970-01-01) plus a
time-of-day in seconds. -/
structure Timestamp where
  date : Int
  tod : Nat
deriving DecidableEq, Repr

/-- Chronological (lexicographic) strict order on timestamps. -/
def tsLtB (a b : Timestamp) : Bool :=
  decide (a.date < b.date) || (decide (a.date = b.date) && decide (a.tod < b.tod))

/-- Day number of a civil date (days since 1970-01-01), the standard
`days_from_civil` conversion. -/
def dateToDays (y m d : Int) : Int :=
  let y' := if m ≤ 2 then y - 1 else y
  let era := (if 0 ≤ y' then y' else y' - 399) / 400
  let yoe := y' - era * 400
  let mp := if 2 < m then m - 3 else m + 9
  let doy := (153 * mp + 2) / 5 + d - 1
  let doe := yoe * 365 + yoe / 4 - yoe / 100 + doy
  era * 146097 + doe - 719468

/-- `pd.Timestamp('1753-01-01')` (migrate_data.py line 74). -/
def sqlServerMinDate : Timestamp := ⟨dateToDays 1753 1 1, 0⟩

/-- `pd.Timestamp('9999-12-31')` (migrate_data.py line 75). -/
def sqlServerMaxDate : Timestamp := ⟨dateToDays 9999 12 31, 0⟩

/-- One row of the dataset. Source/destination column names are identified
through `COLUMN_MAPPING` (config.py lines 72-85). -/
structure Row where
  name : Option PyStr
  homepageUrl : Option PyStr
  categoryList : Option PyStr
  fundingTotalUsd : Option ℚ
  status : Option PyStr
  countryCode : Option PyStr
  stateCode : Option PyStr
  city : Option PyStr
  fundingRounds : Option ℚ
  foundedAt : Option Timestamp
  firstFundingAt : Option Timestamp
  lastFundingAt : Option Timestamp
deriving DecidableEq, Repr

/-- Which mapped columns are present in the frame's header
(`'col' in df.columns`). -/
structure Cols where
  name : Bool
  homepageUrl : Bool
  categoryList : Bool
  fundingTotalUsd : Bool
  status : Bool
  countryCode : Bool
  stateCode : Bool
  city : Bool
  fundingRounds : Bool
  foundedAt : Bool
  firstFundingAt : Bool
  lastFundingAt : Bool
deriving DecidableEq, Repr

/-- A pandas DataFrame: presence flags for the mapped columns, plus the rows. -/
structure DataFrame where
  cols : Cols
  rows : List Row
deriving DecidableEq, Repr

/-- `if_exists` values accepted by `DataFrame.to_sql`. -/
inductive Mode where
  | replace
  | append
  | failIfExists
deriving DecidableEq, Repr

/-- `MIGRATION_CONFIG` (config.py lines 22-28). -/
structure MigrationConfig where
  batch_size : Nat
  table_name : String
  schema : String
  if_exists : Mode
  chunksize : Nat
deriving Repr

def MIGRATION_CONFIG : MigrationConfig :=
  { batch_size := 1000
    table_name := "Companies"
    schema := "dbo"
    if_exists := Mode.replace
    chunksize := 1000 }

/-- `VALIDATION_RULES` (config.py lines 88-98). -/
def VALIDATION_RULES_max_name_length : Nat := 255
def VALIDATION_RULES_max_url_length : Nat := 500
def VALIDATION_RULES_max_category_length : Nat := 500
def VALIDATION_RULES_max_status_length : Nat := 50
def VALIDATION_RULES_max_country_code_length : Nat := 10
def VALIDATION_RULES_max_state_code_length : Nat := 50
def VALIDATION_RULES_max_city_length : Nat := 100
def VALIDATION_RULES_min_funding_amount : ℚ := 0
def VALIDATION_RULES_max_funding_amount : ℚ := 99999999999999999 / 100

/-- Name-length correction of `validate_data` (migrate_data.py lines 47-51):
values longer than `max_name_length` are cut to the limit (`.str[:255]`),
shorter values are untouched. -/
def truncNameCell (c : Option PyStr) : Option PyStr :=
  c.map (fun s =>
    if VALIDATION_RULES_max_name_length < s.length then
      s.take VALIDATION_RULES_max_name_length
    else s)

/-- Funding correction of `validate_data` (migrate_data.py lines 54-59):
values outside `[min_funding_amount, max_funding_amount]` become NaN. -/
def clampFundingCell (c : Option ℚ) : Option ℚ :=
  match c with
  | none => none
  | some x =>
      if x < VALIDATION_RULES_min_funding_amount ∨
         VALIDATION_RULES_max_funding_amount < x then none
      else some x

/-- `validate_data` (migrate_data.py lines 36-62). `df.dropna(subset=['name'])`
raises `KeyError` when the `name` column is absent; otherwise rows with a
null name are removed, over-long names truncated, and out-of-range funding
values nulled (the latter only when the column is present). -/
def validate_data (df : DataFrame) : Except String DataFrame :=
  if df.cols.name then
    let rows1 := df.rows.filter (fun r => r.name.isSome)
    let rows2 := rows1.map (fun r => { r with name := truncNameCell r.name })
    let rows3 :=
      if df.cols.fundingTotalUsd then
        rows2.map (fun r => { r with fundingTotalUsd := clampFundingCell r.fundingTotalUsd })
      else rows2
    Except.ok { df with rows := rows3 }
  else
    Except.error "KeyError"

/-- Date-range correction of `clean_and_transform_data`
(migrate_data.py lines 88-99): a non-null timestamp strictly before
`sqlServerMinDate` or strictly after `sqlServerMaxDate` becomes NaT;
in-range timestamps are kept unchanged (the source keeps the value
"as datetime object", line 101). -/
def cleanDateCell (c : Option Timestamp) : Option Timestamp :=
  match c with
  | none => none
  | some t =>
      if tsLtB t sqlServerMinDate then none
      else if tsLtB sqlServerMaxDate t then none
      else some t

/-- String cleaning of `clean_and_transform_data` (migrate_data.py
lines 116-120): `astype(str)` renders a missing value as the text `nan`,
`.replace('nan', np.nan)` turns that text back into a null, and
`.str.strip()` trims surrounding whitespace. -/
def pyStrip (s : PyStr) : PyStr :=
  ((s.dropWhile Char.isWhitespace).reverse.dropWhile Char.isWhitespace).reverse

def cleanStringCell (c : Option PyStr) : Option PyStr :=
  let c1 : PyStr := match c with | none => "nan".data | some s => s
  if c1 = "nan".data then none else some (pyStrip c1)

/-- Date column processing for `FoundedAt` (migrate_data.py lines 77-105):
guarded by column presence and by `df[col].notna().any()`. -/
def stageFoundedAt (present : Bool) (rows : List Row) : List Row :=
  if present then
    if rows.any (fun r => r.foundedAt.isSome) then
      rows.map (fun r => { r with foundedAt := cleanDateCell r.foundedAt })
    else rows
  else rows

def stageFirstFundingAt (present : Bool) (rows : List Row) : List Row :=
  if present then
    if rows.any (fun r => r.firstFundingAt.isSome) then
      rows.map (fun r => { r with firstFundingAt := cleanDateCell r.firstFundingAt })
    else rows
  else rows

def stageLastFundingAt (present : Bool) (rows : List Row) : List Row :=
  if present then
    if rows.any (fun r => r.lastFundingAt.isSome) then
      rows.map (fun r => { r with lastFundingAt := cleanDateCell r.lastFundingAt })
    else rows
  else rows

/-- String column stages (migrate_data.py lines 115-120), one per column in
source order, each guarded by `if col in df.columns`. -/
def stageStrName (present : Bool) (rows : List Row) : List Row :=
  if present then rows.map (fun r => { r with name := cleanStringCell r.name }) else rows

def stageStrHomepageUrl (present : Bool) (rows : List Row) : List Row :=
  if present then rows.map (fun r => { r with homepageUrl := cleanStringCell r.homepageUrl }) else rows

def stageStrCategoryList (present : Bool) (rows : List Row) : List Row :=
  if present then rows.map (fun r => { r with categoryList := cleanStringCell r.categoryList }) else rows

def stageStrStatus (present : Bool) (rows : List Row) : List Row :=
  if present then rows.map (fun r => { r with status := cleanStringCell r.status }) else rows

def stageStrCountryCode (present : Bool) (rows : List Row) : List Row :=
  if present then rows.map (fun r => { r with countryCode := cleanStringCell r.countryCode }) else rows

def stageStrStateCode (present : Bool) (rows : List Row) : List Row :=
  if present then rows.map (fun r => { r with stateCode := cleanStringCell r.stateCode }) else rows

def stageStrCity (present : Bool) (rows : List Row) : List Row :=
  if present then rows.map (fun r => { r with city := cleanStringCell r.city }) else rows

/-- `clean_and_transform_data` (migrate_data.py lines 64-123): rename (a
relabelling, identity here), date-range cleaning of the three date columns,
`pd.to_numeric(..., errors='coerce')` on the numeric columns (identity on
already-numeric-or-null cells), then string cleaning of the seven string
columns. -/
def clean_and_transform_data (df : DataFrame) : DataFrame :=
  let r1 := stageFoundedAt df.cols.foundedAt df.rows
  let r2 := stageFirstFundingAt df.cols.firstFundingAt r1
  let r3 := stageLastFundingAt df.cols.lastFundingAt r2
  let r4 := stageStrName df.cols.name r3
  let r5 := stageStrHomepageUrl df.cols.homepageUrl r4
  let r6 := stageStrCategoryList df.cols.categoryList r5
  let r7 := stageStrStatus df.cols.status r6
  let r8 := stageStrCountryCode df.cols.countryCode r7
  let r9 := stageStrStateCode df.cols.stateCode r8
  let r10 := stageStrCity df.cols.city r9
  { df with rows := r10 }

/-- Result of step 4 of `main` (migrate_data.py lines 322-323):
`validate_data` followed by `clean_and_transform_data`; `none` when
validation raised. -/
def validated (df : DataFrame) : Option DataFrame :=
  match validate_data df with
  | Except.ok d => some d
  | Except.error _ => none

def pipelineOutput (df : DataFrame) : Option DataFrame :=
  (validated df).map clean_and_transform_data

/-! ### Chunked writer (`migrate_data_to_sql`, migrate_data.py lines 179-210) -/

/-- Destination table contents. -/
abbrev Table := List Row

/-- `range(0, n, B)` for a positive step `B` (and `[]` for `n = 0`): the
chunk start offsets.  `(n + B - 1) / B` is the `total_chunks` expression of
migrate_data.py line 188. -/
def pythonRangeStep (n B : Nat) : List Nat :=
  (List.range ((n + B - 1) / B)).map (fun i => i * B)

/-- The chunk partition of migrate_data.py lines 190-192:
`chunk_end = min(chunk_start + chunk_size, len(df))` and
`chunk_df = df.iloc[chunk_start:chunk_end]`. -/
def chunksOf (l : List α) (B : Nat) : List (List α) :=
  (pythonRangeStep l.length B).map
    (fun s => (l.drop s).take (min (s + B) l.length - s))

/-- Effect of one `to_sql` call on the destination table (`none` = the call
raised): `replace` drops and recreates, `append` adds to the existing
contents (creating the table when absent), `fail` raises when the table
already exists. -/
def applyMode (m : Mode) (tbl : Option Table) (b : Table) : Option Table :=
  match m with
  | Mode.replace => some b
  | Mode.append => some (tbl.getD [] ++ b)
  | Mode.failIfExists => match tbl with | some _ => none | none => some b

/-- Outcome of `migrate_data_to_sql`: the returned boolean, the destination
table afterwards, and the `to_sql` calls attempted (batch index with the
`if_exists` argument used, in order). -/
structure MigResult where
  success : Bool
  table : Option Table
  calls : List (Nat × Mode)
deriving Repr

/-- The `for i, chunk_start in enumerate(range(...))` loop of
migrate_data.py lines 190-203.  `ok i` is the external-failure oracle for
the `i`-th `to_sql` call (connection loss etc.); any raised exception is
caught by the surrounding `try` and turns into `return False`
(lines 208-210), leaving whatever was already committed in place. -/
def migrateLoop (cfgm : Mode) (ok : Nat → Bool) :
    Nat → Option Table → List Table → MigResult
  | _, tbl, [] => ⟨true, tbl, []⟩
  | i, tbl, b :: bs =>
      let m := if 0 < i then Mode.append else cfgm
      if ok i then
        match applyMode m tbl b with
        | some t =>
            let r := migrateLoop cfgm ok (i + 1) (some t) bs
            ⟨r.success, r.table, (i, m) :: r.calls⟩
        | none => ⟨false, tbl, [(i, m)]⟩
      else ⟨false, tbl, [(i, m)]⟩

/-- `migrate_data_to_sql` (migrate_data.py lines 179-210). -/
def migrate_data_to_sql (cfg : MigrationConfig) (ok : Nat → Bool)
    (tbl : Option Table) (rows : List Row) : MigResult :=
  migrateLoop cfg.if_exists ok 0 tbl (chunksOf rows cfg.chunksize)

/-- Destination table after the successful writes of the first batches
(used to state that committed batches are never rolled back). -/
def commitFrom (cfgm : Mode) : Nat → Option Table → List Table → Option Table
  | _, tbl, [] => tbl
  | i, tbl, b :: bs =>
      match applyMode (if 0 < i then Mode.append else cfgm) tbl b with
      | some t => commitFrom cfgm (i + 1) (some t) bs
      | none => tbl

/-! ### Pipeline driver (`main`, migrate_data.py lines 294-344) -/

/-- External world of one run: oracles for the steps whose outcome is not
determined by the dataset. -/
structure Env where
  csvExists : Bool
  connOk : Bool
  createDbOk : Bool
  df : DataFrame
  writeOk : Nat → Bool
  verifyOk : Bool
  reportWriteOk : Bool
  table : Option Table

/-- Whether `generate_summary_report` raises (migrate_data.py
lines 244-292): the report text indexes `Name`, `FundingTotalUSD`,
`CountryCode` and `CategoryList` unconditionally (KeyError when absent),
and writing `migration_summary_report.txt` can fail. -/
def reportRaises (d : DataFrame) (writeOkay : Bool) : Bool :=
  !(d.cols.name && d.cols.fundingTotalUsd && d.cols.countryCode && d.cols.categoryList)
    || !writeOkay

/-- `main` (migrate_data.py lines 294-344): sequential steps, each failing
step returns `False`; exceptions raised by validation or by the report
generator are caught by the surrounding `try` and also give `False`. -/
def mainRun (cfg : MigrationConfig) (e : Env) : Bool :=
  if e.csvExists && e.connOk && e.createDbOk then
    match validate_data e.df with
    | Except.error _ => false
    | Except.ok d1 =>
        let d2 := clean_and_transform_data d1
        let r := migrate_data_to_sql cfg e.writeOk e.table d2.rows
        r.success && e.verifyOk && !reportRaises d2 e.reportWriteOk
  else false

/-! ### Predicates used to state the claims -/

/-- `Except` result carries a value (no exception was raised). -/
def validateIsOk (x : Except String DataFrame) : Bool :=
  match x with
  | Except.ok _ => true
  | Except.error _ => false

/-- Claim predicate: the record's Name is non-null and non-empty. -/
def claimNameRequiredB (r : Row) : Bool :=
  match r.name with
  | none => false
  | some s => decide (s ≠ [])

/-- Length bound on an optional string cell (null passes). -/
def lenLeB (n : Nat) (c : Option PyStr) : Bool :=
  match c with
  | none => true
  | some s => decide (s.length ≤ n)

/-- Claim predicate (C2): every string field within its configured maximum. -/
def claimStringLimitsB (r : Row) : Bool :=
  lenLeB VALIDATION_RULES_max_name_length r.name &&
  lenLeB VALIDATION_RULES_max_url_length r.homepageUrl &&
  lenLeB VALIDATION_RULES_max_category_length r.categoryList &&
  lenLeB VALIDATION_RULES_max_status_length r.status &&
  lenLeB VALIDATION_RULES_max_country_code_length r.countryCode &&
  lenLeB VALIDATION_RULES_max_state_code_length r.stateCode &&
  lenLeB VALIDATION_RULES_max_city_length r.city

/-- The record's Name, when non-null, fits the 255-character limit. -/
def nameLenOkB (r : Row) : Bool := lenLeB VALIDATION_RULES_max_name_length r.name

/-- A date cell is null or within the representable SQL Server range
(compared as timestamps). -/
def tsRangeOkB (c : Option Timestamp) : Bool :=
  match c with
  | none => true
  | some t => !tsLtB t sqlServerMinDate && !tsLtB sqlServerMaxDate t

def rowFoundedOkB (r : Row) : Bool := tsRangeOkB r.foundedAt
def rowFirstFundingOkB (r : Row) : Bool := tsRangeOkB r.firstFundingAt
def rowLastFundingOkB (r : Row) : Bool := tsRangeOkB r.lastFundingAt

/-- All present date columns of the frame are range-clean. -/
def dateFieldsOkB (d : DataFrame) : Bool :=
  (!d.cols.foundedAt || d.rows.all rowFoundedOkB) &&
  (!d.cols.firstFundingAt || d.rows.all rowFirstFundingOkB) &&
  (!d.cols.lastFundingAt || d.rows.all rowLastFundingOkB)

/-- Claim predicate (C6): a date cell carries no time-of-day component. -/
def todZeroB (c : Option Timestamp) : Bool :=
  match c with
  | none => true
  | some t => decide (t.tod = 0)

def claimDateOnlyB (r : Row) : Bool :=
  todZeroB r.foundedAt && todZeroB r.firstFundingAt && todZeroB r.lastFundingAt

/-! ### Concrete inputs for counterexamples and witnesses -/

def blankRow : Row :=
  { name := none, homepageUrl := none, categoryList := none,
    fundingTotalUsd := none, status := none, countryCode := none,
    stateCode := none, city := none, fundingRounds := none,
    foundedAt := none, firstFundingAt := none, lastFundingAt := none }

def colsAll : Cols :=
  { name := true, homepageUrl := true, categoryList := true,
    fundingTotalUsd := true, status := true, countryCode := true,
    stateCode := true, city := true, fundingRounds := true,
    foundedAt := true, firstFundingAt := true, lastFundingAt := true }

/-- A well-formed single record. -/
def goodRow : Row := { blankRow with name := some "acme".data }

def exDfGood : DataFrame := ⟨colsAll, [goodRow]⟩

/-- Environment where everything succeeds except post-load verification. -/
def exEnvC1 : Env :=
  { csvExists := true, connOk := true, createDbOk := true, df := exDfGood,
    writeOk := fun _ => true, verifyOk := false, reportWriteOk := true,
    table := none }

/-- Environment where everything succeeds except writing the report file. -/
def exEnvC7 : Env :=
  { csvExists := true, connOk := true, createDbOk := true, df := exDfGood,
    writeOk := fun _ => true, verifyOk := true, reportWriteOk := false,
    table := none }

/-- Row whose homepage URL is 501 characters long. -/
def rowLongUrl : Row :=
  { blankRow with name := some "acme".data,
                  homepageUrl := some (List.replicate 501 'a') }

def exDfLongUrl : DataFrame := ⟨colsAll, [rowLongUrl]⟩

/-- Row whose name is the empty string (non-null). -/
def rowEmptyName : Row := { blankRow with name := some [] }

def exDfEmptyName : DataFrame := ⟨colsAll, [rowEmptyName]⟩

/-- An in-range timestamp with a non-zero time of day
(2000-06-15 12:34:56). -/
def tsMidday : Timestamp := ⟨dateToDays 2000 6 15, 45296⟩

def rowMidday : Row :=
  { blankRow with name := some "beta".data, foundedAt := some tsMidday }

def exDfMidday : DataFrame := ⟨colsAll, [rowMidday]⟩

/-- Header that lacks the mapped `name` column. -/
def colsNoName : Cols := { colsAll with name := false }

def exDfNoName : DataFrame := ⟨colsNoName, [blankRow]⟩

/-- Environment whose loaded frame lacks the `name` column; every external
step would succeed. -/
def exEnvNoName : Env :=
  { csvExists := true, connOk := true, createDbOk := true, df := exDfNoName,
    writeOk := fun _ => true, verifyOk := true, reportWriteOk := true,
    table := none }

/-- Configuration with chunk size 1 (used to exercise several batches). -/
def cfgChunk1 : MigrationConfig := { MIGRATION_CONFIG with chunksize := 1 }

/-! ### Lemmas about the chunk partition -/

lemma chunksOf_nil {α : Type} (B : Nat) : chunksOf ([] : List α) B = [] := by
  have h0 : (B - 1) / B = 0 := by
    rcases Nat.eq_zero_or_pos B with h | h
    · subst h; simp
    · exact Nat.div_eq_of_lt (by omega)
  simp [chunksOf, pythonRangeStep, h0]

lemma chunk_slice_eq {α : Type} (l : List α) (B s : Nat) :
    (l.drop s).take (min (s + B) l.length - s) = (l.drop s).take B := by
  rcases le_or_lt (s + B) l.length with h | h
  · have hm : min (s + B) l.length - s = B := by omega
    rw [hm]
  · have hm : min (s + B) l.length - s = l.length - s := by omega
    rw [hm, List.take_of_length_le (by rw [List.length_drop]),
        List.take_of_length_le (by rw [List.length_drop]; omega)]

lemma numChunks_succ (n B : Nat) (hn : 0 < n) (hB : 0 < B) :
    (n + B - 1) / B = (n - B + B - 1) / B + 1 := by
  rcases le_or_lt n B with h | h
  · have h1 : n - B = 0 := by omega
    rw [h1]
    have h2 : (0 + B - 1) / B = 0 := Nat.div_eq_of_lt (by omega)
    rw [h2]
    exact Nat.div_eq_of_lt_le (by omega) (by omega)
  · have h3 : n - B + B - 1 = n - B - 1 + B := by omega
    have h4 : n + B - 1 = n - 1 + B := by omega
    have h5 : n - 1 = n - B - 1 + B := by omega
    rw [h3, h4, Nat.add_div_right _ hB, Nat.add_div_right _ hB, h5,
        Nat.add_div_right _ hB]

lemma chunksOf_cons {α : Type} {B : Nat} (hB : 0 < B) {l : List α} (hl : l ≠ []) :
    chunksOf l B = l.take B :: chunksOf (l.drop B) B := by
  have hn : 0 < l.length := List.length_pos.mpr hl
  have hnum : (l.length + B - 1) / B = ((l.drop B).length + B - 1) / B + 1 := by
    rw [List.length_drop]
    exact numChunks_succ l.length B hn hB
  simp only [chunksOf, pythonRangeStep, hnum, List.range_succ_eq_map,
    List.map_cons, List.map_map]
  refine congrArg₂ List.cons ?_ ?_
  · simp only [Function.comp, Nat.zero_mul]
    rw [chunk_slice_eq, List.drop_zero]
  · refine List.map_congr_left ?_
    intro i _
    simp only [Function.comp, Nat.succ_eq_add_one]
    rw [chunk_slice_eq, chunk_slice_eq, List.drop_drop]
    have hidx : B + i * B = (i + 1) * B := by ring
    rw [hidx]

lemma chunksOf_flatten {α : Type} {B : Nat} (hB : 0 < B) (l : List α) :
    (chunksOf l B).flatten = l := by
  suffices H : ∀ n (l : List α), l.length ≤ n → (chunksOf l B).flatten = l from
    H l.length l le_rfl
  intro n
  induction n with
  | zero =>
      intro l hl
      have h0 : l = [] := List.length_eq_zero.mp (Nat.le_zero.mp hl)
      subst h0
      simp [chunksOf_nil]
  | succ n ih =>
      intro l hl
      by_cases hnil : l = []
      · subst hnil; simp [chunksOf_nil]
      · have hp : 0 < l.length := List.length_pos.mpr hnil
        rw [chunksOf_cons hB hnil, List.flatten_cons,
            ih (l.drop B) (by rw [List.length_drop]; omega)]
        exact List.take_append_drop B l

lemma chunksOf_length {α : Type} (l : List α) (B : Nat) :
    (chunksOf l B).length = (l.length + B - 1) / B := by
  simp [chunksOf, pythonRangeStep]

lemma chunksOf_sizes {α : Type} {B : Nat} (hB : 0 < B) (l : List α) :
    ((chunksOf l B).map List.length).sum = l.length := by
  rw [← List.length_flatten, chunksOf_flatten hB]

lemma chunksOf_size_le {α : Type} (l : List α) (B : Nat) :
    (chunksOf l B).all (fun c => decide (c.length ≤ B)) = true := by
  rw [List.all_eq_true]
  intro c hc
  simp only [chunksOf, List.mem_map] at hc
  obtain ⟨s, _, rfl⟩ := hc
  rw [chunk_slice_eq]
  simp only [decide_eq_true_eq]
  exact List.length_take_le B (l.drop s)

/-! ### Lemmas about the write loop -/

lemma modeAt_eq (cfgm : Mode) (i : Nat) :
    (if 0 < i then Mode.append else cfgm) = (if i = 0 then cfgm else Mode.append) := by
  cases i <;> simp

lemma applyMode_eq_some (m : Mode) (tbl : Option Table) (b : Table)
    (hm : m ≠ Mode.failIfExists) : ∃ t, applyMode m tbl b = some t := by
  cases m with
  | replace => exact ⟨b, rfl⟩
  | append => exact ⟨tbl.getD [] ++ b, rfl⟩
  | failIfExists => exact absurd rfl hm

lemma migrateLoop_calls_mode (cfgm : Mode) (ok : Nat → Bool) :
    ∀ (bs : List Table) (i : Nat) (tbl : Option Table),
      ((migrateLoop cfgm ok i tbl bs).calls.all
        (fun p => decide (p.2 = if p.1 = 0 then cfgm else Mode.append))) = true := by
  intro bs
  induction bs with
  | nil => intro i tbl; rfl
  | cons b bs ih =>
      intro i tbl
      simp only [migrateLoop]
      by_cases hok : ok i = true
      · rw [hok, if_pos rfl]
        cases h : applyMode (if 0 < i then Mode.append else cfgm) tbl b with
        | some t =>
            simp only [List.all_cons, Bool.and_eq_true, decide_eq_true_eq]
            exact ⟨modeAt_eq cfgm i, ih (i + 1) (some t)⟩
        | none =>
            simp only [List.all_cons, List.all_nil, Bool.and_true,
              decide_eq_true_eq]
            exact modeAt_eq cfgm i
      · rw [Bool.not_eq_true] at hok
        rw [hok, if_neg (by simp)]
        simp only [List.all_cons, List.all_nil, Bool.and_true, decide_eq_true_eq]
        exact modeAt_eq cfgm i

lemma migrateLoop_calls_idx (cfgm : Mode) (ok : Nat → Bool) :
    ∀ (bs : List Table) (i : Nat) (tbl : Option Table),
      (migrateLoop cfgm ok i tbl bs).calls.map Prod.fst =
        List.range' i (migrateLoop cfgm ok i tbl bs).calls.length := by
  intro bs
  induction bs with
  | nil => intro i tbl; rfl
  | cons b bs ih =>
      intro i tbl
      simp only [migrateLoop]
      by_cases hok : ok i = true
      · rw [hok, if_pos rfl]
        cases h : applyMode (if 0 < i then Mode.append else cfgm) tbl b with
        | some t =>
            simp only [List.map_cons, List.length_cons, List.range'_succ]
            rw [ih (i + 1) (some t)]
        | none => rfl
      · rw [Bool.not_eq_true] at hok
        rw [hok, if_neg (by simp)]
        rfl

lemma migrateLoop_fail (cfgm : Mode) (ok : Nat → Bool)
    (hc : cfgm ≠ Mode.failIfExists) :
    ∀ (bs : List Table) (j i : Nat) (tbl : Option Table),
      j < bs.length → ok (i + j) = false → (∀ k, k < j → ok (i + k) = true) →
      migrateLoop cfgm ok i tbl bs =
        ⟨false, commitFrom cfgm i tbl (bs.take j),
         (List.range' i (j + 1)).map
           (fun k => (k, if k = 0 then cfgm else Mode.append))⟩ := by
  intro bs
  induction bs with
  | nil => intro j i tbl hj _ _; exact absurd hj (by simp)
  | cons b bs ih =>
      intro j i tbl hj hja hpre
      cases j with
      | zero =>
          have h0 : ok i = false := by simpa using hja
          simp only [migrateLoop, h0, if_neg (by simp : ¬False = true)]
          simp [commitFrom, List.range'_succ, modeAt_eq cfgm i]
      | succ j' =>
          have hok0 : ok i = true := by simpa using hpre 0 (by omega)
          have hm : (if 0 < i then Mode.append else cfgm) ≠ Mode.failIfExists := by
            cases i with
            | zero => simpa using hc
            | succ k => simp
          obtain ⟨t, ht⟩ := applyMode_eq_some _ tbl b hm
          simp only [migrateLoop, hok0, if_pos rfl, ht]
          have hja' : ok (i + 1 + j') = false := by
            rw [show i + 1 + j' = i + (j' + 1) by omega]; exact hja
          have hpre' : ∀ k, k < j' → ok (i + 1 + k) = true := by
            intro k hk
            rw [show i + 1 + k = i + (k + 1) by omega]
            exact hpre (k + 1) (by omega)
          rw [ih j' (i + 1) (some t) (by simpa using hj) hja' hpre']
          have ht' : applyMode (if i = 0 then cfgm else Mode.append) tbl b = some t := by
            rw [← modeAt_eq]; exact ht
          simp [List.take_succ_cons, commitFrom, ht', List.range'_succ,
            modeAt_eq cfgm i]

/-! ### Lemmas about validation and cleaning -/

lemma all_ite_map {q : Prop} [Decidable q] (p : Row → Bool) (g : Row → Row)
    (rows : List Row) (hg : ∀ r, p (g r) = p r) :
    ((if q then rows.map g else rows).all p) = rows.all p := by
  split
  · rw [List.all_map]
    have hfg : p ∘ g = p := funext hg
    rw [hfg]
  · rfl

lemma all_ite_ite_map {q q' : Prop} [Decidable q] [Decidable q']
    (p : Row → Bool) (g : Row → Row) (rows : List Row)
    (hg : ∀ r, p (g r) = p r) :
    ((if q then (if q' then rows.map g else rows) else rows).all p) = rows.all p := by
  split
  · exact all_ite_map p g rows hg
  · rfl

lemma all_ite_map_imp {q : Prop} [Decidable q] (p : Row → Bool) (g : Row → Row)
    (rows : List Row) (hg : ∀ r, p r = true → p (g r) = true)
    (h : rows.all p = true) :
    ((if q then rows.map g else rows).all p) = true := by
  split
  · rw [List.all_eq_true]
    intro x hx
    rw [List.mem_map] at hx
    obtain ⟨r, hr, rfl⟩ := hx
    exact hg r (List.all_eq_true.mp h r hr)
  · exact h

lemma presFoundedAt (p : Row → Bool)
    (hp : ∀ r, p { r with foundedAt := cleanDateCell r.foundedAt } = p r)
    (b : Bool) (rows : List Row) :
    (stageFoundedAt b rows).all p = rows.all p := by
  unfold stageFoundedAt
  exact all_ite_ite_map p _ rows hp

lemma presFirstFundingAt (p : Row → Bool)
    (hp : ∀ r, p { r with firstFundingAt := cleanDateCell r.firstFundingAt } = p r)
    (b : Bool) (rows : List Row) :
    (stageFirstFundingAt b rows).all p = rows.all p := by
  unfold stageFirstFundingAt
  exact all_ite_ite_map p _ rows hp

lemma presLastFundingAt (p : Row → Bool)
    (hp : ∀ r, p { r with lastFundingAt := cleanDateCell r.lastFundingAt } = p r)
    (b : Bool) (rows : List Row) :
    (stageLastFundingAt b rows).all p = rows.all p := by
  unfold stageLastFundingAt
  exact all_ite_ite_map p _ rows hp

lemma presStrName (p : Row → Bool)
    (hp : ∀ r, p { r with name := cleanStringCell r.name } = p r)
    (b : Bool) (rows : List Row) :
    (stageStrName b rows).all p = rows.all p := by
  unfold stageStrName
  exact all_ite_map p _ rows hp

lemma presStrUrl (p : Row → Bool)
    (hp : ∀ r, p { r with homepageUrl := cleanStringCell r.homepageUrl } = p r)
    (b : Bool) (rows : List Row) :
    (stageStrHomepageUrl b rows).all p = rows.all p := by
  unfold stageStrHomepageUrl
  exact all_ite_map p _ rows hp

lemma presStrCategory (p : Row → Bool)
    (hp : ∀ r, p { r with categoryList := cleanStringCell r.categoryList } = p r)
    (b : Bool) (rows : List Row) :
    (stageStrCategoryList b rows).all p = rows.all p := by
  unfold stageStrCategoryList
  exact all_ite_map p _ rows hp

lemma presStrStatus (p : Row → Bool)
    (hp : ∀ r, p { r with status := cleanStringCell r.status } = p r)
    (b : Bool) (rows : List Row) :
    (stageStrStatus b rows).all p = rows.all p := by
  unfold stageStrStatus
  exact all_ite_map p _ rows hp

lemma presStrCountry (p : Row → Bool)
    (hp : ∀ r, p { r with countryCode := cleanStringCell r.countryCode } = p r)
    (b : Bool) (rows : List Row) :
    (stageStrCountryCode b rows).all p = rows.all p := by
  unfold stageStrCountryCode
  exact all_ite_map p _ rows hp

lemma presStrState (p : Row → Bool)
    (hp : ∀ r, p { r with stateCode := cleanStringCell r.stateCode } = p r)
    (b : Bool) (rows : List Row) :
    (stageStrStateCode b rows).all p = rows.all p := by
  unfold stageStrStateCode
  exact all_ite_map p _ rows hp

lemma presStrCity (p : Row → Bool)
    (hp : ∀ r, p { r with city := cleanStringCell r.city } = p r)
    (b : Bool) (rows : List Row) :
    (stageStrCity b rows).all p = rows.all p := by
  unfold stageStrCity
  exact all_ite_map p _ rows hp

lemma tsRangeOk_cleanDateCell (c : Option Timestamp) :
    tsRangeOkB (cleanDateCell c) = true := by
  cases c with
  | none => rfl
  | some t =>
      simp only [cleanDateCell]
      by_cases h1 : tsLtB t sqlServerMinDate = true
      · rw [if_pos h1]; rfl
      · rw [if_neg h1]
        by_cases h2 : tsLtB sqlServerMaxDate t = true
        · rw [if_pos h2]; rfl
        · rw [if_neg h2]
          have h1' : tsLtB t sqlServerMinDate = false := by simpa using h1
          have h2' : tsLtB sqlServerMaxDate t = false := by simpa using h2
          simp only [tsRangeOkB, h1', h2']
          rfl

lemma stageFoundedAt_all (rows : List Row) :
    (stageFoundedAt true rows).all rowFoundedOkB = true := by
  unfold stageFoundedAt
  rw [if_pos rfl]
  split
  · rw [List.all_eq_true]
    intro r hr
    rw [List.mem_map] at hr
    obtain ⟨r0, _, rfl⟩ := hr
    exact tsRangeOk_cleanDateCell r0.foundedAt
  · rename_i hany
    have hany' : rows.any (fun r => r.foundedAt.isSome) = false := by
      simpa using hany
    rw [List.all_eq_true]
    intro r hr
    have hf := List.any_eq_false.mp hany' r hr
    cases hopt : r.foundedAt with
    | none => unfold rowFoundedOkB; rw [hopt]; rfl
    | some t => exact absurd (by rw [hopt]; rfl) hf

lemma stageFirstFundingAt_all (rows : List Row) :
    (stageFirstFundingAt true rows).all rowFirstFundingOkB = true := by
  unfold stageFirstFundingAt
  rw [if_pos rfl]
  split
  · rw [List.all_eq_true]
    intro r hr
    rw [List.mem_map] at hr
    obtain ⟨r0, _, rfl⟩ := hr
    exact tsRangeOk_cleanDateCell r0.firstFundingAt
  · rename_i hany
    have hany' : rows.any (fun r => r.firstFundingAt.isSome) = false := by
      simpa using hany
    rw [List.all_eq_true]
    intro r hr
    have hf := List.any_eq_false.mp hany' r hr
    cases hopt : r.firstFundingAt with
    | none => unfold rowFirstFundingOkB; rw [hopt]; rfl
    | some t => exact absurd (by rw [hopt]; rfl) hf

lemma stageLastFundingAt_all (rows : List Row) :
    (stageLastFundingAt true rows).all rowLastFundingOkB = true := by
  unfold stageLastFundingAt
  rw [if_pos rfl]
  split
  · rw [List.all_eq_true]
    intro r hr
    rw [List.mem_map] at hr
    obtain ⟨r0, _, rfl⟩ := hr
    exact tsRangeOk_cleanDateCell r0.lastFundingAt
  · rename_i hany
    have hany' : rows.any (fun r => r.lastFundingAt.isSome) = false := by
      simpa using hany
    rw [List.all_eq_true]
    intro r hr
    have hf := List.any_eq_false.mp hany' r hr
    cases hopt : r.lastFundingAt with
    | none => unfold rowLastFundingOkB; rw [hopt]; rfl
    | some t => exact absurd (by rw [hopt]; rfl) hf

lemma pyStrip_length_le (s : PyStr) : (pyStrip s).length ≤ s.length := by
  unfold pyStrip
  rw [List.length_reverse]
  refine le_trans ((List.dropWhile_sublist _).length_le) ?_
  rw [List.length_reverse]
  exact (List.dropWhile_sublist _).length_le

lemma lenLe_cleanStringCell (n : Nat) (c : Option PyStr) (h : lenLeB n c = true) :
    lenLeB n (cleanStringCell c) = true := by
  cases c with
  | none => simp [cleanStringCell, lenLeB]
  | some s =>
      simp only [cleanStringCell]
      split
      · rfl
      · simp only [lenLeB, decide_eq_true_eq] at h ⊢
        exact le_trans (pyStrip_length_le s) h

lemma truncNameCell_lenOk (c : Option PyStr) :
    lenLeB VALIDATION_RULES_max_name_length (truncNameCell c) = true := by
  cases c with
  | none => rfl
  | some s =>
      simp only [truncNameCell, Option.map_some']
      split
      · simp only [lenLeB, decide_eq_true_eq]
        exact List.length_take_le _ _
      · rename_i hlen
        simp only [lenLeB, decide_eq_true_eq]
        omega

lemma validate_all_nameLen (df d : DataFrame) (h : validate_data df = Except.ok d) :
    d.rows.all nameLenOkB = true := by
  simp only [validate_data] at h
  by_cases hc : df.cols.name = true
  · rw [if_pos hc] at h
    injection h with h
    subst h
    have h2 : ((df.rows.filter (fun r => r.name.isSome)).map
        (fun r => { r with name := truncNameCell r.name })).all nameLenOkB = true := by
      rw [List.all_eq_true]
      intro r hr
      rw [List.mem_map] at hr
      obtain ⟨r0, _, rfl⟩ := hr
      exact truncNameCell_lenOk r0.name
    show (if df.cols.fundingTotalUsd = true then _ else _ : List Row).all _ = true
    split
    · rw [List.all_eq_true]
      intro r hr
      rw [List.mem_map] at hr
      obtain ⟨r0, hr0, rfl⟩ := hr
      exact List.all_eq_true.mp h2 r0 hr0
    · exact h2
  · rw [if_neg hc] at h
    exact absurd h (by simp)

lemma validate_all_nameSome (df d : DataFrame) (h : validate_data df = Except.ok d) :
    d.rows.all (fun r => r.name.isSome) = true := by
  simp only [validate_data] at h
  by_cases hc : df.cols.name = true
  · rw [if_pos hc] at h
    injection h with h
    subst h
    have h2 : ((df.rows.filter (fun r => r.name.isSome)).map
        (fun r => { r with name := truncNameCell r.name })).all
        (fun r => r.name.isSome) = true := by
      rw [List.all_eq_true]
      intro r hr
      rw [List.mem_map] at hr
      obtain ⟨r0, hr0, rfl⟩ := hr
      have hs : r0.name.isSome = true := (List.mem_filter.mp hr0).2
      cases hopt : r0.name with
      | none => rw [hopt] at hs; exact absurd hs (by simp)
      | some s => rfl
    show (if df.cols.fundingTotalUsd = true then _ else _ : List Row).all _ = true
    split
    · rw [List.all_eq_true]
      intro r hr
      rw [List.mem_map] at hr
      obtain ⟨r0, hr0, rfl⟩ := hr
      exact List.all_eq_true.mp h2 r0 hr0
    · exact h2
  · rw [if_neg hc] at h
    exact absurd h (by simp)

lemma stageStrName_nameLen (b : Bool) (rows : List Row)
    (h : rows.all nameLenOkB = true) :
    (stageStrName b rows).all nameLenOkB = true := by
  unfold stageStrName
  refine all_ite_map_imp nameLenOkB _ rows ?_ h
  intro r hr
  exact lenLe_cleanStringCell _ r.name hr

lemma clean_nameLen (d : DataFrame) (h : d.rows.all nameLenOkB = true) :
    (clean_and_transform_data d).rows.all nameLenOkB = true := by
  simp only [clean_and_transform_data]
  rw [presStrCity nameLenOkB (fun r => rfl), presStrState nameLenOkB (fun r => rfl),
      presStrCountry nameLenOkB (fun r => rfl), presStrStatus nameLenOkB (fun r => rfl),
      presStrCategory nameLenOkB (fun r => rfl), presStrUrl nameLenOkB (fun r => rfl)]
  apply stageStrName_nameLen
  rw [presLastFundingAt nameLenOkB (fun r => rfl),
      presFirstFundingAt nameLenOkB (fun r => rfl),
      presFoundedAt nameLenOkB (fun r => rfl)]
  exact h

lemma clean_foundedAt_ok (df : DataFrame) (h : df.cols.foundedAt = true) :
    (clean_and_transform_data df).rows.all rowFoundedOkB = true := by
  simp only [clean_and_transform_data]
  rw [presStrCity rowFoundedOkB (fun r => rfl), presStrState rowFoundedOkB (fun r => rfl),
      presStrCountry rowFoundedOkB (fun r => rfl), presStrStatus rowFoundedOkB (fun r => rfl),
      presStrCategory rowFoundedOkB (fun r => rfl), presStrUrl rowFoundedOkB (fun r => rfl),
      presStrName rowFoundedOkB (fun r => rfl),
      presLastFundingAt rowFoundedOkB (fun r => rfl),
      presFirstFundingAt rowFoundedOkB (fun r => rfl), h]
  exact stageFoundedAt_all df.rows

lemma clean_firstFundingAt_ok (df : DataFrame) (h : df.cols.firstFundingAt = true) :
    (clean_and_transform_data df).rows.all rowFirstFundingOkB = true := by
  simp only [clean_and_transform_data]
  rw [presStrCity rowFirstFundingOkB (fun r => rfl),
      presStrState rowFirstFundingOkB (fun r => rfl),
      presStrCountry rowFirstFundingOkB (fun r => rfl),
      presStrStatus rowFirstFundingOkB (fun r => rfl),
      presStrCategory rowFirstFundingOkB (fun r => rfl),
      presStrUrl rowFirstFundingOkB (fun r => rfl),
      presStrName rowFirstFundingOkB (fun r => rfl),
      presLastFundingAt rowFirstFundingOkB (fun r => rfl), h]
  exact stageFirstFundingAt_all _

lemma clean_lastFundingAt_ok (df : DataFrame) (h : df.cols.lastFundingAt = true) :
    (clean_and_transform_data df).rows.all rowLastFundingOkB = true := by
  simp only [clean_and_transform_data]
  rw [presStrCity rowLastFundingOkB (fun r => rfl),
      presStrState rowLastFundingOkB (fun r => rfl),
      presStrCountry rowLastFundingOkB (fun r => rfl),
      presStrStatus rowLastFundingOkB (fun r => rfl),
      presStrCategory rowLastFundingOkB (fun r => rfl),
      presStrUrl rowLastFundingOkB (fun r => rfl),
      presStrName rowLastFundingOkB (fun r => rfl), h]
  exact stageLastFundingAt_all _

/-! ## Claim theorems -/

/-- Claim C1, counterexample: in a run where every batch write completes and
only the post-load verification fails, `main` reports failure — refuting the
claim that such a run is still reported as a load success. -/
theorem C1_counterexample :
    ((pipelineOutput exDfGood).map
        (fun d => (migrate_data_to_sql MIGRATION_CONFIG exEnvC1.writeOk
          exEnvC1.table d.rows).success)) = some true ∧
    mainRun MIGRATION_CONFIG exEnvC1 = false :=
  ⟨rfl, rfl⟩

/-- Claim C1, amended: a post-load verification failure is fatal to the
reported result — whenever verification fails, the driver reports the run
as failed (the already-written batches stay committed, but the exit signal
is failure, not success-with-warning). -/
theorem C1_theorem (cfg : MigrationConfig) (e : Env) (h : e.verifyOk = false) :
    mainRun cfg e = false := by
  unfold mainRun
  split
  · split
    · rfl
    · simp [h]
  · rfl

/-- Claim C1, witness for the amended theorem at a concrete environment. -/
theorem C1_witness :
    exEnvC1.verifyOk = false ∧ mainRun MIGRATION_CONFIG exEnvC1 = false :=
  ⟨rfl, C1_theorem MIGRATION_CONFIG exEnvC1 rfl⟩

set_option maxRecDepth 4000 in
/-- Claim C2, counterexample: a record with a 501-character HomepageURL
survives the pipeline untruncated, so the output violates the configured
500-character maximum. -/
theorem C2_counterexample :
    (pipelineOutput exDfLongUrl).all
      (fun d => d.rows.all claimStringLimitsB) = false := by
  decide

/-- Claim C2, amended: only the Name field's length is enforced — every
record in the pipeline output has a Name of at most 255 characters (over-long
names are truncated and the record kept); the other string fields are not
truncated and may exceed their configured maxima. -/
theorem C2_theorem (df : DataFrame) :
    (pipelineOutput df).all (fun d => d.rows.all nameLenOkB) = true := by
  unfold pipelineOutput validated
  cases h : validate_data df with
  | error e => rfl
  | ok d => exact clean_nameLen d (validate_all_nameLen df d h)

/-- Claim C3, counterexample: a record whose name is the empty string (not
null) survives validation and cleaning, so the output contains a record with
an empty Name. -/
theorem C3_counterexample :
    (pipelineOutput exDfEmptyName).all
      (fun d => d.rows.all claimNameRequiredB) = false :=
  rfl

/-- Claim C3, amended: validation drops exactly the records whose name is
null, so immediately after validation every record's Name is non-null;
empty-string names survive, and the later cleaning step can also turn a
literal `nan` name back into null. -/
theorem C3_theorem (df : DataFrame) :
    (validated df).all (fun d => d.rows.all (fun r => r.name.isSome)) = true := by
  unfold validated
  cases h : validate_data df with
  | error e => rfl
  | ok d => exact validate_all_nameSome df d h

/-- Claim C4: for every record sequence and positive batch size `B`, the
chunked writer's partition has exactly `⌈N/B⌉` batches, concatenates back to
the original sequence (contiguous, order-preserving, no overlap, no gap),
has sizes summing to `N`, and every batch holds at most `B` records. -/
theorem C4_theorem (rows : List Row) (B : Nat) (hB : 0 < B) :
    (chunksOf rows B).length = (rows.length + B - 1) / B ∧
    (chunksOf rows B).flatten = rows ∧
    ((chunksOf rows B).map List.length).sum = rows.length ∧
    (chunksOf rows B).all (fun c => decide (c.length ≤ B)) = true :=
  ⟨chunksOf_length rows B, chunksOf_flatten hB rows,
   chunksOf_sizes hB rows, chunksOf_size_le rows B⟩

/-- Claim C4, witness: the partition of 3 records into batches of 2. -/
theorem C4_witness :
    0 < 2 ∧
    ((chunksOf (List.replicate 3 blankRow) 2).length =
        ((List.replicate 3 blankRow).length + 2 - 1) / 2 ∧
      (chunksOf (List.replicate 3 blankRow) 2).flatten = List.replicate 3 blankRow ∧
      ((chunksOf (List.replicate 3 blankRow) 2).map List.length).sum =
        (List.replicate 3 blankRow).length ∧
      (chunksOf (List.replicate 3 blankRow) 2).all
        (fun c => decide (c.length ≤ 2)) = true) :=
  ⟨by decide, C4_theorem (List.replicate 3 blankRow) 2 (by decide)⟩

/-- Claim C5: if the `j`-th batch write fails (all earlier ones succeeded),
the run returns failure, exactly the batches `0..j` were attempted, and the
destination holds precisely the result of the `j` committed writes — nothing
later is attempted and nothing already written is rolled back. -/
theorem C5_theorem (cfg : MigrationConfig) (ok : Nat → Bool)
    (tbl : Option Table) (rows : List Row) (j : Nat)
    (hc : cfg.if_exists ≠ Mode.failIfExists)
    (hj : j < (chunksOf rows cfg.chunksize).length)
    (hja : ok j = false) (hpre : ∀ k, k < j → ok k = true) :
    migrate_data_to_sql cfg ok tbl rows =
      ⟨false, commitFrom cfg.if_exists 0 tbl ((chunksOf rows cfg.chunksize).take j),
       (List.range (j + 1)).map
         (fun k => (k, if k = 0 then cfg.if_exists else Mode.append))⟩ := by
  unfold migrate_data_to_sql
  rw [List.range_eq_range']
  exact migrateLoop_fail cfg.if_exists ok hc _ j 0 tbl hj (by simpa using hja)
    (by intro k hk; simpa using hpre k hk)

/-- Claim C5, witness: three one-record batches with the second write
failing. -/
theorem C5_witness :
    (fun k => decide (k ≠ 1)) 1 = false ∧
    migrate_data_to_sql cfgChunk1 (fun k => decide (k ≠ 1)) none
        (List.replicate 3 blankRow) =
      ⟨false,
       commitFrom cfgChunk1.if_exists 0 none
         ((chunksOf (List.replicate 3 blankRow) cfgChunk1.chunksize).take 1),
       (List.range 2).map
         (fun k => (k, if k = 0 then cfgChunk1.if_exists else Mode.append))⟩ :=
  ⟨by decide,
   C5_theorem cfgChunk1 (fun k => decide (k ≠ 1)) none (List.replicate 3 blankRow) 1
     (by decide) (by decide) (by decide) (by decide)⟩

/-- Claim C6, counterexample: an in-range timestamp with time-of-day
12:34:56 is retained with its time-of-day intact, refuting the claim that
retained values carry only the calendar date. -/
theorem C6_counterexample :
    (pipelineOutput exDfMidday).all
      (fun d => d.rows.all claimDateOnlyB) = false :=
  rfl

/-- Claim C6, amended: for each present date column, cleaning nulls every
non-null value outside the SQL Server range (compared as timestamps against
midnight of the bounds), so all output date values are null or in range;
in-range values are kept as full timestamps — the time-of-day is not
discarded in the frame, the date-only conversion being delegated to the
database layer. -/
theorem C6_theorem (df : DataFrame) :
    dateFieldsOkB (clean_and_transform_data df) = true := by
  unfold dateFieldsOkB
  rw [Bool.and_eq_true, Bool.and_eq_true]
  refine ⟨⟨?_, ?_⟩, ?_⟩
  · cases h : df.cols.foundedAt with
    | false =>
        rw [Bool.or_eq_true]
        left
        show (!df.cols.foundedAt) = true
        rw [h]; rfl
    | true =>
        rw [Bool.or_eq_true]
        right
        exact clean_foundedAt_ok df h
  · cases h : df.cols.firstFundingAt with
    | false =>
        rw [Bool.or_eq_true]
        left
        show (!df.cols.firstFundingAt) = true
        rw [h]; rfl
    | true =>
        rw [Bool.or_eq_true]
        right
        exact clean_firstFundingAt_ok df h
  · cases h : df.cols.lastFundingAt with
    | false =>
        rw [Bool.or_eq_true]
        left
        show (!df.cols.lastFundingAt) = true
        rw [h]; rfl
    | true =>
        rw [Bool.or_eq_true]
        right
        exact clean_lastFundingAt_ok df h

/-- Claim C7, counterexample: a run in which writing and verification both
complete but the report file cannot be written is reported as failed —
refuting the claim that report generation is best-effort. -/
theorem C7_counterexample :
    ((pipelineOutput exDfGood).map
        (fun d => (migrate_data_to_sql MIGRATION_CONFIG exEnvC7.writeOk
          exEnvC7.table d.rows).success)) = some true ∧
    exEnvC7.verifyOk = true ∧
    mainRun MIGRATION_CONFIG exEnvC7 = false :=
  ⟨rfl, rfl, rfl⟩

/-- Claim C7, amended: a failure to persist the summary report makes the
driver report the whole run as failed (the report step's exception is caught
by `main`'s blanket handler, which returns failure). -/
theorem C7_theorem (cfg : MigrationConfig) (e : Env)
    (h : e.reportWriteOk = false) :
    mainRun cfg e = false := by
  unfold mainRun
  split
  · split
    · rfl
    · simp [reportRaises, h]
  · rfl

/-- Claim C7, witness for the amended theorem at a concrete environment. -/
theorem C7_witness :
    exEnvC7.reportWriteOk = false ∧ mainRun MIGRATION_CONFIG exEnvC7 = false :=
  ⟨rfl, C7_theorem MIGRATION_CONFIG exEnvC7 rfl⟩

/-- Claim C8, counterexample: on a frame whose header lacks the mapped
`name` column, validation raises (`dropna(subset=['name'])` throws
`KeyError`) and the run fails — refuting the claim that missing mapped
columns are never an error. -/
theorem C8_counterexample :
    validateIsOk (validate_data exDfNoName) = false ∧
    mainRun MIGRATION_CONFIG exEnvNoName = false :=
  ⟨rfl, rfl⟩

/-- Claim C8, amended: validation raises exactly when the `name` column is
absent; every other mapped column may be missing without an error (the
per-column steps are presence-guarded), but a missing `name` column aborts
the run. -/
theorem C8_theorem (df : DataFrame) :
    validateIsOk (validate_data df) = df.cols.name := by
  unfold validate_data
  by_cases h : df.cols.name = true
  · rw [if_pos h, h]; rfl
  · rw [if_neg h]
    have h' : df.cols.name = false := by simpa using h
    rw [h']; rfl

/-- Claim C9: every `to_sql` call of the chunked writer uses the configured
write mode for batch 0 and `append` for every later batch, and the attempted
batch indices are consecutive from 0. -/
theorem C9_theorem (cfg : MigrationConfig) (ok : Nat → Bool)
    (tbl : Option Table) (rows : List Row) :
    ((migrate_data_to_sql cfg ok tbl rows).calls.all
      (fun p => decide (p.2 = if p.1 = 0 then cfg.if_exists else Mode.append))) = true ∧
    (migrate_data_to_sql cfg ok tbl rows).calls.map Prod.fst =
      List.range (migrate_data_to_sql cfg ok tbl rows).calls.length := by
  constructor
  · exact migrateLoop_calls_mode cfg.if_exists ok _ 0 tbl
  · rw [List.range_eq_range']
    exact migrateLoop_calls_idx cfg.if_exists ok _ 0 tbl

/-- Claim C10: on an empty validated record sequence the chunked writer
performs no `to_sql` call at all, reports success, and leaves the
destination table exactly as it was — even under write mode `replace`. -/
theorem C10_theorem (cfg : MigrationConfig) (ok : Nat → Bool)
    (tbl : Option Table) :
    migrate_data_to_sql cfg ok tbl ([] : List Row) = ⟨true, tbl, []⟩ := by
  unfold migrate_data_to_sql
  rw [chunksOf_nil]
  rfl

end Migration
